import Mathlib

/-!
Shallow embedding of the orders-service core (NestJS + Prisma, `src/orders/orders.service.ts`)
and proofs about its specification.

Modelling conventions:
* Timestamps are epoch milliseconds (`Nat`); monetary amounts are `Int`
  (the service stores Prisma Decimals; all claim-relevant arithmetic is exact).
* A TypeScript partial-update field distinguishes absent (`undefined`), explicit
  `null`, and a value; it is embedded as `Option (Option a)`:
  `none` = key absent, `some none` = explicit null, `some (some v)` = value.
* The database row for the order under mutation is passed explicitly
  (the `findUnique` lookup is resolved by the caller of the model);
  the order store and the cash-ledger HTTP service are external collaborators,
  so the outcome of each cash POST attempt is a parameter `att : Nat → Bool`
  and the three DISTINCT filter queries are a parameter returning their result.
* Fire-and-forget notification fan-out never affects stored state or responses
  and is not modelled.
-/

namespace OrdersService

/-- Substring occurrence on character lists, by structural recursion. -/
def charsContain : List Char → List Char → Bool
  | _, [] => true
  | [], _ :: _ => false
  | c :: cs, p :: ps => List.isPrefixOf (p :: ps) (c :: cs) || charsContain cs (p :: ps)

/-- JS `String.includes` / SQL `LIKE '%pat%'`: does `pat` occur inside `s`. -/
def strContains (s pat : String) : Bool :=
  charsContain s.data pat.data

/-- SQL `field ILIKE '%pat%'` (case-insensitive containment). -/
def ilike (f pat : String) : Bool :=
  strContains f.toLower pat.toLower

/-- Terminal order statuses (Done / Refused / NotAnOrder), line 718. -/
def terminalStatuses : List String := ["Готово", "Отказ", "Незаказ"]

/-- Active order statuses, in workflow order (line 300). -/
def activeStatuses : List String := ["Ожидает", "Принял", "В пути", "В работе", "Модерн"]

/-- Central entity: one row of the `orders` table. -/
structure Order where
  id : Nat
  rk : String := ""
  city : String := ""
  avitoName : Option String := none
  phone : String := ""
  typeOrder : Option String := none
  clientName : String := ""
  address : String := ""
  dateMeeting : Option Nat := none
  typeEquipment : Option String := none
  problem : Option String := none
  callRecord : Option String := none
  statusOrder : String := "Ожидает"
  masterId : Option Nat := none
  result : Option Int := none
  expenditure : Option Int := none
  clean : Option Int := none
  masterChange : Option Int := none
  bsoDoc : Option String := none
  expenditureDoc : Option String := none
  operatorNameId : Option Nat := none
  createDate : Nat := 0
  closingData : Option Nat := none
  avitoChatId : Option String := none
  callId : Option String := none
  prepayment : Option Int := none
  dateClosmod : Option Nat := none
  comment : Option String := none
  cashSubmissionStatus : Option String := none
  cashSubmissionDate : Option Nat := none
  cashSubmissionAmount : Option Int := none
  cashReceiptDoc : Option String := none
  partner : Option Bool := none
  partnerPercent : Option Int := none
  deriving DecidableEq

/-- Authenticated caller identity (JWT payload). -/
structure AuthUser where
  userId : Nat
  role : String
  cities : Option (List String) := none
  deriving DecidableEq

/-- Partial-update payload of PATCH /orders/:id (`UpdateOrderDto`). -/
structure UpdateOrderDto where
  rk : Option (Option String) := none
  city : Option (Option String) := none
  avitoName : Option (Option String) := none
  phone : Option (Option String) := none
  typeOrder : Option (Option String) := none
  clientName : Option (Option String) := none
  address : Option (Option String) := none
  typeEquipment : Option (Option String) := none
  problem : Option (Option String) := none
  avitoChatId : Option (Option String) := none
  callId : Option (Option String) := none
  operatorNameId : Option (Option Nat) := none
  statusOrder : Option (Option String) := none
  masterId : Option (Option Nat) := none
  result : Option (Option Int) := none
  expenditure : Option (Option Int) := none
  clean : Option (Option Int) := none
  masterChange : Option (Option Int) := none
  prepayment : Option (Option Int) := none
  bsoDoc : Option (Option String) := none
  expenditureDoc : Option (Option String) := none
  cashReceiptDoc : Option (Option String) := none
  comment : Option (Option String) := none
  cashSubmissionStatus : Option (Option String) := none
  cashSubmissionAmount : Option (Option Int) := none
  partner : Option (Option Bool) := none
  partnerPercent : Option (Option Int) := none
  dateMeeting : Option (Option Nat) := none
  closingData : Option (Option Nat) := none
  dateClosmod : Option (Option Nat) := none
  deriving DecidableEq

/-- The TS guard `dto.f !== undefined && dto.f !== null`, returning the value when it passes. -/
def presentNonNull : Option (Option a) → Option a
  | some (some v) => some v
  | _ => none

/-- Line 691: a city was supplied, is non-null, and differs from the stored one. -/
def cityChanged (o : Order) (dto : UpdateOrderDto) : Bool :=
  match dto.city with
  | some (some c) => c != o.city
  | _ => false

/-- Lines 696-699 clear the master when the city changes on an assigned order; the later
lines 723-725 (`dto.masterId !== undefined`) then overwrite that with the dto value. -/
def updMasterId (o : Order) (dto : UpdateOrderDto) : Option (Option Nat) :=
  match dto.masterId with
  | some m => some m
  | none =>
    if cityChanged o dto && o.masterId.isSome then some none else none

/-- Lines 716-722 stamp `closingData = now` when the new status is terminal and the
dto key is absent (`dto.closingData === undefined`); lines 763-765 store an explicitly
supplied non-null closing date (overwriting the stamp). -/
def updClosingData (dto : UpdateOrderDto) (now : Nat) : Option Nat :=
  match presentNonNull dto.closingData with
  | some v => some v
  | none =>
    match dto.statusOrder with
    | some (some s) =>
      if terminalStatuses.contains s && dto.closingData.isNone then some now else none
    | _ => none

/-- Line 733: `dto.result !== undefined ? dto.result : (updateData.result || 0)`.
In the `undefined` branch `updateData.result` is necessarily unset (line 728 only sets
it from a present non-null `dto.result`), so the fallback evaluates to 0; an explicit
JS `null` operand also coerces to 0 in the subtraction. -/
def finalOperand : Option (Option Int) → Int
  | some (some v) => v
  | some none => 0
  | none => 0

/-- Lines 731-740: `clean` is recomputed server-side whenever `result` or `expenditure`
is supplied non-null; otherwise a supplied non-null `clean` is stored as-is. -/
def updClean (dto : UpdateOrderDto) : Option Int :=
  if (presentNonNull dto.result).isSome || (presentNonNull dto.expenditure).isSome then
    some (finalOperand dto.result - finalOperand dto.expenditure)
  else
    presentNonNull dto.clean

/-- The `updateData` object accumulated in `updateOrder` (lines 681-768): each field is
`some v` when the corresponding `updateData.f = v` assignment ran.  Fields whose source
assignment copies the dto value under only an `!== undefined` check (and hence can write
an explicit null) are doubly optional. -/
structure UpdateData where
  rk : Option String := none
  city : Option String := none
  avitoName : Option String := none
  phone : Option String := none
  typeOrder : Option String := none
  clientName : Option String := none
  address : Option String := none
  typeEquipment : Option String := none
  problem : Option String := none
  avitoChatId : Option String := none
  callId : Option String := none
  operatorNameId : Option Nat := none
  statusOrder : Option String := none
  masterId : Option (Option Nat) := none
  result : Option Int := none
  expenditure : Option Int := none
  clean : Option Int := none
  masterChange : Option Int := none
  prepayment : Option Int := none
  bsoDoc : Option (Option String) := none
  expenditureDoc : Option (Option String) := none
  cashReceiptDoc : Option (Option String) := none
  comment : Option String := none
  cashSubmissionStatus : Option String := none
  cashSubmissionAmount : Option Int := none
  partner : Option (Option Bool) := none
  partnerPercent : Option Int := none
  dateMeeting : Option Nat := none
  closingData : Option Nat := none
  dateClosmod : Option Nat := none
  deriving DecidableEq

/-- Lines 681-768 of `updateOrder`: build the partial update from the dto.  The source
assigns the fields sequentially; only `masterId` (city-change clearing overwritten by an
explicit dto value) and `closingData` (terminal stamp overwritten by an explicit date)
have order-dependent interactions, resolved in `updMasterId` / `updClosingData`. -/
def buildUpdateData (o : Order) (dto : UpdateOrderDto) (now : Nat) : UpdateData :=
  { rk := presentNonNull dto.rk
    city := presentNonNull dto.city
    avitoName := presentNonNull dto.avitoName
    phone := presentNonNull dto.phone
    typeOrder := presentNonNull dto.typeOrder
    clientName := presentNonNull dto.clientName
    address := presentNonNull dto.address
    typeEquipment := presentNonNull dto.typeEquipment
    problem := presentNonNull dto.problem
    avitoChatId := presentNonNull dto.avitoChatId
    callId := presentNonNull dto.callId
    operatorNameId := presentNonNull dto.operatorNameId
    statusOrder := presentNonNull dto.statusOrder
    masterId := updMasterId o dto
    result := presentNonNull dto.result
    expenditure := presentNonNull dto.expenditure
    clean := updClean dto
    masterChange := presentNonNull dto.masterChange
    prepayment := presentNonNull dto.prepayment
    bsoDoc := dto.bsoDoc
    expenditureDoc := dto.expenditureDoc
    cashReceiptDoc := dto.cashReceiptDoc
    comment := presentNonNull dto.comment
    cashSubmissionStatus := presentNonNull dto.cashSubmissionStatus
    cashSubmissionAmount := presentNonNull dto.cashSubmissionAmount
    partner := dto.partner
    partnerPercent := presentNonNull dto.partnerPercent
    dateMeeting := presentNonNull dto.dateMeeting
    closingData := updClosingData dto now
    dateClosmod := presentNonNull dto.dateClosmod }

/-- Prisma `update` semantics for a field the update object may set to a value. -/
def applyField (u : Option a) (cur : a) : a := u.getD cur

/-- Prisma `update` semantics for a nullable column set to a (non-null) value. -/
def applyValue (u : Option a) (cur : Option a) : Option a :=
  match u with
  | some v => some v
  | none => cur

/-- Prisma `update` semantics for a nullable column that may be set to null. -/
def applyNullable (u : Option (Option a)) (cur : Option a) : Option a := u.getD cur

/-- Line 770: `tx.order.update({ data: updateData })` applied to the stored row. -/
def applyUpdate (o : Order) (u : UpdateData) : Order :=
  { o with
    rk := applyField u.rk o.rk
    city := applyField u.city o.city
    avitoName := applyValue u.avitoName o.avitoName
    phone := applyField u.phone o.phone
    typeOrder := applyValue u.typeOrder o.typeOrder
    clientName := applyField u.clientName o.clientName
    address := applyField u.address o.address
    typeEquipment := applyValue u.typeEquipment o.typeEquipment
    problem := applyValue u.problem o.problem
    avitoChatId := applyValue u.avitoChatId o.avitoChatId
    callId := applyValue u.callId o.callId
    operatorNameId := applyValue u.operatorNameId o.operatorNameId
    statusOrder := applyField u.statusOrder o.statusOrder
    masterId := applyNullable u.masterId o.masterId
    result := applyValue u.result o.result
    expenditure := applyValue u.expenditure o.expenditure
    clean := applyValue u.clean o.clean
    masterChange := applyValue u.masterChange o.masterChange
    prepayment := applyValue u.prepayment o.prepayment
    bsoDoc := applyNullable u.bsoDoc o.bsoDoc
    expenditureDoc := applyNullable u.expenditureDoc o.expenditureDoc
    cashReceiptDoc := applyNullable u.cashReceiptDoc o.cashReceiptDoc
    comment := applyValue u.comment o.comment
    cashSubmissionStatus := applyValue u.cashSubmissionStatus o.cashSubmissionStatus
    cashSubmissionAmount := applyValue u.cashSubmissionAmount o.cashSubmissionAmount
    partner := applyNullable u.partner o.partner
    partnerPercent := applyValue u.partnerPercent o.partnerPercent
    dateMeeting := applyValue u.dateMeeting o.dateMeeting
    closingData := applyValue u.closingData o.closingData
    dateClosmod := applyValue u.dateClosmod o.dateClosmod }

/-- Materialized filter options stored in the cache / returned to the caller.
`cities` is optional because the timeout fallback object (line 1639) omits the key. -/
structure FilterData where
  rks : List String := []
  typeEquipments : List String := []
  cities : Option (List String) := none
  deriving DecidableEq

/-- One entry of the in-process filter-options cache (line 21). -/
structure CacheEntry where
  data : FilterData
  expiry : Nat
  lastAccess : Nat
  deriving DecidableEq

/-- The `filterOptionsCache` Map, in insertion order (JS Map iteration order). -/
abbrev FilterCache := List (String × CacheEntry)

/-- Lines 1649-1652: `invalidateFilterOptionsCache` clears the whole map. -/
def invalidateFilterOptionsCache (_ : FilterCache) : FilterCache := []

/-- Lines 1371-1441: the retry loop posts to the cash service up to `maxRetries = 3`
times; the call as a whole succeeds when some attempt among the first three does.
`att n` is the outcome of the n-th HTTP POST attempt (external collaborator). -/
def cashPostSucceeds (att : Nat → Bool) : Bool :=
  att 1 || att 2 || att 3

/-- Lines 1326-1483, `syncCashReceipt` on the `updated` row: on success (lines 1450-1457)
write the sent status, date and amount; on exhausted retries (lines 1462-1482) write the
sync-error status and date, and rethrow.  Returns the new stored row and whether the
POST was booked. -/
def syncCashReceipt (o : Order) (att : Nat → Bool) (now : Nat) : Order × Bool :=
  let masterChangeAmount : Int := o.masterChange.getD 0
  if cashPostSucceeds att then
    ({ o with
        cashSubmissionStatus := some "Отправлено"
        cashSubmissionDate := some now
        cashSubmissionAmount := some masterChangeAmount }, true)
  else
    ({ o with
        cashSubmissionStatus := some "Ошибка синхронизации"
        cashSubmissionDate := some now }, false)

/-- Truthiness check `updated.masterChange && Number(updated.masterChange) > 0`
(a null Decimal is falsy; otherwise compare the numeric value). -/
def positiveMasterChange : Option Int → Bool
  | some v => decide (0 < v)
  | none => false

/-- Outcome surfaced to the HTTP caller of a mutation. -/
inductive UpdateResponse
  | forbidden
  | ok (data : Order)
  | err (msg : String)
  deriving DecidableEq

/-- Full effect of one mutation call: final stored row, response, whether a ledger
entry was booked, and the filter-options cache after the call. -/
structure UpdateRun where
  db : Order
  response : UpdateResponse
  booked : Bool
  cache : FilterCache
  deriving DecidableEq

/-- Lines 658-822, `updateOrder`: RBAC check, transactional partial update, then the
settlement saga strictly after the transaction (lines 794-810): on cash failure the
status and closing date are reverted by a second write and a user-facing error replaces
the success response.  The body never touches the filter-options cache. -/
def updateOrder (o : Order) (dto : UpdateOrderDto) (user : AuthUser) (now : Nat)
    (att : Nat → Bool) (cache : FilterCache) : UpdateRun :=
  if user.role == "master" && o.masterId != some user.userId then
    { db := o, response := .forbidden, booked := false, cache := cache }
  else
    let u := buildUpdateData o dto now
    let updated := applyUpdate o u
    let needsCashSync :=
      dto.statusOrder == some (some "Готово") && positiveMasterChange updated.masterChange
    if needsCashSync then
      let sync := syncCashReceipt updated att now
      if sync.2 then
        { db := sync.1, response := .ok updated, booked := true, cache := cache }
      else
        -- lines 800-808: compensating write reverting only status and closing date
        let reverted :=
          { sync.1 with statusOrder := o.statusOrder, closingData := o.closingData }
        { db := reverted
          response := .err "Заказ не может быть закрыт: сервис кассы недоступен. Попробуйте позже."
          booked := false, cache := cache }
    else
      { db := updated, response := .ok updated, booked := false, cache := cache }

/-- Lines 1194-1270, `updateStatus`: RBAC check, duplicate-status guard inside a
Serializable transaction (lines 1224-1231), terminal stamp of `closingData`, then the
same post-transaction settlement saga with compensation (lines 1250-1266).
`needsCashSync` is computed from the pre-update row (line 1219).  The body never
touches the filter-options cache. -/
def updateStatus (o : Order) (status : String) (user : AuthUser) (now : Nat)
    (att : Nat → Bool) (cache : FilterCache) : UpdateRun :=
  if user.role == "master" && o.masterId != some user.userId then
    { db := o, response := .forbidden, booked := false, cache := cache }
  else
    let needsCashSync := status == "Готово" && positiveMasterChange o.masterChange
    if o.statusOrder == status then
      { db := o, response := .err "Статус уже установлен", booked := false, cache := cache }
    else
      let updated :=
        if terminalStatuses.contains status then
          { o with statusOrder := status, closingData := some now }
        else
          { o with statusOrder := status }
      if needsCashSync then
        let sync := syncCashReceipt updated att now
        if sync.2 then
          { db := sync.1, response := .ok updated, booked := true, cache := cache }
        else
          let reverted :=
            { sync.1 with statusOrder := o.statusOrder, closingData := o.closingData }
          { db := reverted
            response := .err "Сервис транзакций недоступен. Попробуйте позже."
            booked := false, cache := cache }
      else
        { db := updated, response := .ok updated, booked := false, cache := cache }

/-- Creation payload of POST /orders (`CreateOrderDto`). -/
structure CreateOrderDto where
  rk : String := ""
  city : String := ""
  avitoName : Option String := none
  phone : String := ""
  typeOrder : Option String := none
  clientName : String := ""
  address : String := ""
  dateMeeting : Nat := 0
  typeEquipment : Option String := none
  problem : Option String := none
  statusOrder : Option String := none
  operatorNameId : Option Nat := none
  deriving DecidableEq

/-- Lines 371-437, `createOrder`: insert with status defaulting to the initial
state, then invalidate the whole filter-options cache (line 430). -/
def createOrder (dto : CreateOrderDto) (now nextId : Nat) (cache : FilterCache) :
    Order × FilterCache :=
  ({ id := nextId
     rk := dto.rk
     city := dto.city
     avitoName := dto.avitoName
     phone := dto.phone
     typeOrder := dto.typeOrder
     clientName := dto.clientName
     address := dto.address
     dateMeeting := some dto.dateMeeting
     typeEquipment := dto.typeEquipment
     problem := dto.problem
     statusOrder := dto.statusOrder.getD "Ожидает"
     operatorNameId := dto.operatorNameId
     createDate := now },
   invalidateFilterOptionsCache cache)

/-- One row of the `calls` table read by `createOrderFromCall`. -/
structure CallRow where
  id : Nat
  phoneClient : String := ""
  operatorId : Option Nat := none
  callId : Option String := none
  deriving DecidableEq

/-- Creation payload of POST /orders/from-call. -/
structure CreateOrderFromCallDto where
  rk : String := ""
  city : String := ""
  avitoName : Option String := none
  typeOrder : Option String := none
  clientName : String := ""
  address : String := ""
  dateMeeting : Nat := 0
  typeEquipment : Option String := none
  problem : Option String := none
  operatorNameId : Option Nat := none
  deriving DecidableEq

/-- Lines 439-539, `createOrderFromCall`: `calls` is the store's answer to the
`findMany` on the dto call ids, already ordered by `createdAt` descending; an empty
answer is a NotFound error, otherwise the newest call supplies the phone, all call ids
are joined with commas, and the cache is invalidated (line 532). -/
def createOrderFromCall (dto : CreateOrderFromCallDto) (calls : List CallRow)
    (now nextId : Nat) (cache : FilterCache) : Except String (Order × FilterCache) :=
  match calls with
  | [] => .error "Calls not found"
  | mainCall :: _ =>
    let allCallIds := String.intercalate "," (calls.map (fun c => toString c.id))
    .ok
      ({ id := nextId
         rk := dto.rk
         city := dto.city
         avitoName := dto.avitoName
         phone := mainCall.phoneClient
         typeOrder := dto.typeOrder
         clientName := dto.clientName
         address := dto.address
         dateMeeting := some dto.dateMeeting
         typeEquipment := dto.typeEquipment
         problem := dto.problem
         statusOrder := "Ожидает"
         operatorNameId := dto.operatorNameId
         callId := some allCallIds
         createDate := now },
       invalidateFilterOptionsCache cache)

/-- Creation payload of POST /orders/from-chat. -/
structure CreateOrderFromChatDto where
  rk : String := ""
  city : String := ""
  avitoName : Option String := none
  phone : String := ""
  typeOrder : Option String := none
  clientName : String := ""
  address : String := ""
  dateMeeting : Nat := 0
  typeEquipment : Option String := none
  problem : Option String := none
  callRecord : Option String := none
  statusOrder : Option String := none
  operatorNameId : Option Nat := none
  avitoChatId : Option String := none
  comment : Option String := none
  deriving DecidableEq

/-- Lines 541-619, `createOrderFromChat`: insert, then invalidate the cache (line 612). -/
def createOrderFromChat (dto : CreateOrderFromChatDto) (now nextId : Nat)
    (cache : FilterCache) : Order × FilterCache :=
  ({ id := nextId
     rk := dto.rk
     city := dto.city
     avitoName := dto.avitoName
     phone := dto.phone
     typeOrder := dto.typeOrder
     clientName := dto.clientName
     address := dto.address
     dateMeeting := some dto.dateMeeting
     typeEquipment := dto.typeEquipment
     problem := dto.problem
     callRecord := dto.callRecord
     statusOrder := dto.statusOrder.getD "Ожидает"
     operatorNameId := dto.operatorNameId
     avitoChatId := dto.avitoChatId
     comment := dto.comment
     createDate := now },
   invalidateFilterOptionsCache cache)

/-- Query string of GET /orders (`QueryOrdersDto`), with date parameters already
parsed to epoch milliseconds by the embedding. -/
structure QueryOrdersDto where
  page : Nat := 1
  limit : Nat := 50
  status : Option String := none
  city : Option String := none
  search : Option String := none
  searchId : Option String := none
  searchPhone : Option String := none
  searchAddress : Option String := none
  masterId : Option Nat := none
  master : Option String := none
  closingDate : Option Nat := none
  rk : Option String := none
  typeEquipment : Option String := none
  dateType : Option String := none
  dateFrom : Option Nat := none
  dateTo : Option Nat := none

def msPerDay : Nat := 86400000

/-- JS `setHours(0,0,0,0)` on a timestamp (day granularity). -/
def dayStart (t : Nat) : Nat := t / msPerDay * msPerDay

/-- JS `setHours(23,59,59,999)` on a timestamp. -/
def dayEnd (t : Nat) : Nat := dayStart t + (msPerDay - 1)

/-- A present optional filter contributes one WHERE condition, an absent one none. -/
def optCond {b : Type} : Option b → (b → Order → Bool) → List (Order → Bool)
  | some v, f => [f v]
  | none, _ => []

/-- Lines 105-118: comma-separated multi-status filter. -/
def statusConds : Option String → List (Order → Bool)
  | none => []
  | some s =>
    let statuses := ((s.splitOn ",").map String.trim).filter (fun x => x != "")
    match statuses with
    | [] => []
    | [s0] => [fun o => o.statusOrder == s0]
    | ss => [fun o => ss.contains o.statusOrder]

/-- Line 164-172: which date column the range filter compares against. -/
def dateFieldOf (q : QueryOrdersDto) (o : Order) : Option Nat :=
  match q.dateType with
  | some "close" => o.closingData
  | some "meeting" => o.dateMeeting
  | _ => some o.createDate

/-- Lines 194-207: an all-numeric search below 1e6 also matches the id exactly;
any search matches phone/name/address as a case-insensitive substring. -/
def searchCond (s : String) (o : Order) : Bool :=
  match s.toNat? with
  | some n =>
    if decide (0 < n) && decide (n < 1000000) then
      ilike o.phone s || ilike o.clientName s || ilike o.address s || o.id == n
    else
      ilike o.phone s || ilike o.clientName s || ilike o.address s
  | none => ilike o.phone s || ilike o.clientName s || ilike o.address s

/-- Lines 210-217: separate id search, only when the value parses to a positive int. -/
def searchIdConds : Option String → List (Order → Bool)
  | none => []
  | some s =>
    match s.toNat? with
    | some n => if decide (0 < n) then [fun o => o.id == n] else []
    | none => []

/-- Lines 87-231 of `getOrders`: the WHERE conditions, in the order the source pushes
them; the returned rows satisfy their conjunction.  `masters` resolves a master id to
the joined `master.name` (LEFT JOIN, line 285); a NULL name never matches ILIKE. -/
def whereConditions (user : AuthUser) (q : QueryOrdersDto)
    (masters : Nat → Option String) : List (Order → Bool) :=
  -- RBAC scope predicates, pushed before any caller-supplied filter (lines 91-102)
  ((if user.role == "master" then [fun o => o.masterId == some user.userId]
    else []) : List (Order → Bool)) ++
  ((match user.cities with
    | some cs =>
      if user.role == "director" && !cs.isEmpty then [fun o => cs.contains o.city] else []
    | none => []) : List (Order → Bool)) ++
  statusConds q.status ++
  optCond q.city (fun c o => o.city == c) ++
  optCond q.masterId (fun m o => o.masterId == some m) ++
  optCond q.rk (fun r o => o.rk == r) ++
  optCond q.typeEquipment (fun t o => o.typeEquipment == some t) ++
  optCond q.master (fun pat (o : Order) =>
    match o.masterId.bind masters with
    | some name => ilike name pat
    | none => false) ++
  optCond q.closingDate (fun d (o : Order) =>
    match o.closingData with
    | some cd => decide (d ≤ cd) && decide (cd < d + msPerDay)
    | none => false) ++
  optCond q.dateFrom (fun t (o : Order) =>
    match dateFieldOf q o with
    | some v => decide (dayStart t ≤ v)
    | none => false) ++
  optCond q.dateTo (fun t (o : Order) =>
    match dateFieldOf q o with
    | some v => decide (v ≤ dayEnd t)
    | none => false) ++
  optCond q.search (fun s o => searchCond s o) ++
  searchIdConds q.searchId ++
  optCond q.searchPhone (fun s o => ilike o.phone s) ++
  optCond q.searchAddress (fun s o => ilike o.address s)

/-- A row matches the built WHERE clause when every condition holds (AND-joined). -/
def matchesWhere (user : AuthUser) (q : QueryOrdersDto)
    (masters : Nat → Option String) (o : Order) : Bool :=
  (whereConditions user q masters).all (fun c => c o)

/-- Lines 289-297: the first ORDER BY key, the CASE WHEN status-priority ladder. -/
def statusPriority (s : String) : Nat :=
  if s == "Ожидает" then 1
  else if s == "Принял" then 2
  else if s == "В пути" then 3
  else if s == "В работе" then 4
  else if s == "Модерн" then 5
  else if s == "Готово" || s == "Отказ" || s == "Незаказ" then 6
  else 7

/-- Lines 299-302: the second ORDER BY key (meeting date for active statuses, else NULL). -/
def meetingSortKey (o : Order) : Option Nat :=
  if activeStatuses.contains o.statusOrder then o.dateMeeting else none

/-- Lines 304-307: the third ORDER BY key (closing date for terminal statuses, else NULL). -/
def closingSortKey (o : Order) : Option Nat :=
  if terminalStatuses.contains o.statusOrder then o.closingData else none

/-- SQL `ASC NULLS LAST` as a strict comparison on a nullable key. -/
def ascNullsLastLt : Option Nat → Option Nat → Bool
  | some x, some y => decide (x < y)
  | some _, none => true
  | none, _ => false

/-- SQL `DESC NULLS LAST` as a strict comparison on a nullable key. -/
def descNullsLastLt : Option Nat → Option Nat → Bool
  | some x, some y => decide (y < x)
  | some _, none => true
  | none, _ => false

/-- Lexicographic strict comparison of the three ORDER BY keys. -/
def keysLt (p1 p2 : Nat) (m1 m2 c1 c2 : Option Nat) : Bool :=
  decide (p1 < p2) ||
  (p1 == p2 &&
    (ascNullsLastLt m1 m2 || (m1 == m2 && descNullsLastLt c1 c2)))

/-- Row `a` sorts strictly before row `b` under the composite ORDER BY of lines 287-307. -/
def orderByLt (a b : Order) : Bool :=
  keysLt (statusPriority a.statusOrder) (statusPriority b.statusOrder)
    (meetingSortKey a) (meetingSortKey b) (closingSortKey a) (closingSortKey b)

/-- The total preorder the composite ORDER BY sorts by. -/
def orderByLE (a b : Order) : Bool := !(orderByLt b a)

/-- Lines 236-323 of `getOrders`: rows matching the WHERE clause, sorted by the
composite ORDER BY, then paginated with LIMIT `q.limit` OFFSET `(q.page-1)*q.limit`.
`db` is the current contents of the orders table. -/
def getOrdersPage (db : List Order) (q : QueryOrdersDto) (user : AuthUser)
    (masters : Nat → Option String) : List Order :=
  (((db.filter (matchesWhere user q masters)).mergeSort orderByLE).drop
      ((q.page - 1) * q.limit)).take q.limit

/-- Lines 1494-1498: the cache key is an RBAC-scope fingerprint. -/
def cacheKey (user : AuthUser) : String :=
  if user.role == "master" then s!"master_{user.userId}"
  else if user.role == "director" &&
      (match user.cities with | some cs => !cs.isEmpty | none => false) then
    "director_" ++
      String.intercalate ","
        ((user.cities.getD []).mergeSort (fun a b => decide (a ≤ b)))
  else "global"

/-- JS `Map.get`. -/
def cacheGet (c : FilterCache) (k : String) : Option CacheEntry :=
  (c.find? (fun p => p.1 == k)).map (fun p => p.2)

/-- JS `Map.set`: overwrite in place if the key exists, else append. -/
def cacheSet (c : FilterCache) (k : String) (e : CacheEntry) : FilterCache :=
  if c.any (fun p => p.1 == k) then
    c.map (fun p => if p.1 == k then (k, e) else p)
  else
    c ++ [(k, e)]

/-- Lines 1658-1673, `evictLRUCacheEntry`: drop the entry whose `lastAccess` is
smallest (the first such in iteration order, since the scan uses a strict compare). -/
def evictLRUCacheEntry (c : FilterCache) : FilterCache :=
  let oldest := c.foldl
    (fun acc p =>
      match acc with
      | some (_, best) => if p.2.lastAccess < best then some (p.1, p.2.lastAccess) else acc
      | none => some (p.1, p.2.lastAccess))
    none
  match oldest with
  | some (k, _) => c.filter (fun p => p.1 != k)
  | none => c

def FILTER_OPTIONS_CACHE_TTL : Nat := 60000

def FILTER_OPTIONS_CACHE_MAX_SIZE : Nat := 100

/-- Lines 1578-1583: transient error signatures that trigger a retry. -/
def isRetryableError (e : String) : Bool :=
  strContains e "timeout" || strContains e "idle-session" || strContains e "57P05" ||
  strContains e "terminating connection" || strContains e "Connection reset"

/-- Lines 1540-1593, `executeQueries`: `q n` is the store's answer to the n-th attempt
at the three concurrent DISTINCT projections `(rks, typeEquipments, cities)`; a
retryable failure is retried while `attempt < 3`. -/
def executeQueries (q : Nat → Except String (List String × List String × List String)) :
    Except String (List String × List String × List String) :=
  match q 1 with
  | .ok t => .ok t
  | .error e1 =>
    if isRetryableError e1 then
      match q 2 with
      | .ok t => .ok t
      | .error e2 =>
        if isRetryableError e2 then q 3 else .error e2
    else .error e1

/-- Response envelope of `getFilterOptions`. -/
structure FilterOptionsResult where
  success : Bool
  data : FilterData
  cached : Bool := false
  errorTag : Option String := none
  deriving DecidableEq

/-- Lines 1488-1646, `getFilterOptions`: serve a fresh cache entry (refreshing its LRU
stamp); otherwise run the DISTINCT queries with retry, cache and return the triple; if
the final failure is a timeout, degrade to a successful response whose data object
carries empty `rks` and `typeEquipments` and no `cities` key (line 1639); any other
failure is rethrown. -/
def getFilterOptions (cache : FilterCache) (user : AuthUser) (now : Nat)
    (q : Nat → Except String (List String × List String × List String)) :
    Except String (FilterOptionsResult × FilterCache) :=
  let key := cacheKey user
  let onMiss : Except String (FilterOptionsResult × FilterCache) :=
    match executeQueries q with
    | .ok (rks, eqs, cities) =>
      let data : FilterData := { rks := rks, typeEquipments := eqs, cities := some cities }
      let cache1 :=
        if FILTER_OPTIONS_CACHE_MAX_SIZE ≤ cache.length then evictLRUCacheEntry cache
        else cache
      .ok ({ success := true, data := data },
           cacheSet cache1 key
             { data := data, expiry := now + FILTER_OPTIONS_CACHE_TTL, lastAccess := now })
    | .error e =>
      if strContains e "timeout" then
        .ok ({ success := true, data := { rks := [], typeEquipments := [], cities := none },
               errorTag := some "timeout" }, cache)
      else
        .error e
  match cacheGet cache key with
  | some entry =>
    if now < entry.expiry then
      .ok ({ success := true, data := entry.data, cached := true },
           cacheSet cache key { entry with lastAccess := now })
    else onMiss
  | none => onMiss

/-! Concrete sample data used by witnesses and counterexamples. -/

/-- An in-progress order with an assigned master and recorded finances. -/
def demoOrder : Order :=
  { id := 1
    rk := "РК1"
    city := "Москва"
    phone := "+79990001122"
    clientName := "Иван"
    address := "ул. Ленина 1"
    statusOrder := "В работе"
    masterId := some 3
    result := some 1000
    expenditure := some 100
    clean := some 900
    masterChange := some 500 }

/-- A call-centre operator (unrestricted RBAC scope). -/
def operatorUser : AuthUser := { userId := 9, role := "operator" }

/-- A master whose user id is 7. -/
def masterUser7 : AuthUser := { userId := 7, role := "master" }

/-- A partial update that only sets the terminal Done status. -/
def dtoDone : UpdateOrderDto := { statusOrder := some (some "Готово") }

/-- A partial update carrying a full close: Done plus finances and a document. -/
def dtoFullClose : UpdateOrderDto :=
  { statusOrder := some (some "Готово")
    result := some (some 1000)
    expenditure := some (some 200)
    masterChange := some (some 300)
    prepayment := some (some 50)
    bsoDoc := some (some "bso.jpg") }

/-- A partial update supplying only `expenditure`. -/
def dtoExpOnly : UpdateOrderDto := { expenditure := some (some 200) }

/-- A partial update moving the order to another city, nothing else. -/
def dtoCityOnly : UpdateOrderDto := { city := some (some "Казань") }

/-- A partial update moving the city and explicitly assigning master 5. -/
def dtoCityAndMaster : UpdateOrderDto :=
  { city := some (some "Казань"), masterId := some (some 5) }

/-- A harmless partial update touching only the comment. -/
def dtoCommentOnly : UpdateOrderDto := { comment := some (some "позвонить" ) }

/-- Every cash POST attempt succeeds. -/
def allOk : Nat → Bool := fun _ => true

/-- Every cash POST attempt fails (persistent 503 / unavailable ledger). -/
def allFail : Nat → Bool := fun _ => false

/-- First Done submission on `demoOrder` (ledger available). -/
def firstClose : UpdateRun := updateOrder demoOrder dtoDone operatorUser 100 allOk []

/-- Second Done submission on the already-closed stored row. -/
def secondClose : UpdateRun := updateOrder firstClose.db dtoDone operatorUser 200 allOk []

/-- A closed order produced by `updateStatus` (cash booked at time 100). -/
def closedOrder : Order := (updateStatus demoOrder "Готово" operatorUser 100 allOk []).db

/-- Reopening the closed order back to the initial active status. -/
def reopenRun : UpdateRun := updateStatus closedOrder "Ожидает" operatorUser 200 allOk []

/-- Filter options materialized before a mutation. -/
def staleData : FilterData :=
  { rks := ["РК1"], typeEquipments := ["КП"], cities := some ["Москва"] }

/-- A warm cache holding the global-scope entry with TTL expiry at t=1000. -/
def warmCache : FilterCache :=
  [("global", { data := staleData, expiry := 1000, lastAccess := 0 })]

/-- A waiting order assigned to master 7. -/
def waitingOrderOfMaster7 : Order :=
  { id := 10, statusOrder := "Ожидает", masterId := some 7 }

/-- A waiting order assigned to master 8. -/
def waitingOrderOfMaster8 : Order :=
  { id := 11, statusOrder := "Ожидает", masterId := some 8 }

/-- The store's answer when every filter-options query attempt times out. -/
def alwaysTimeout : Nat → Except String (List String × List String × List String) :=
  fun _ => .error "getFilterOptions query timeout (>5s)"

/-- Two waiting orders with different meeting dates (same active status). -/
def meetEarly : Order := { id := 20, statusOrder := "Ожидает", dateMeeting := some 100 }

def meetLate : Order := { id := 21, statusOrder := "Ожидает", dateMeeting := some 200 }

/-- Two closed orders with different closing dates. -/
def closedLate : Order := { id := 30, statusOrder := "Готово", closingData := some 500 }

def closedEarly : Order := { id := 31, statusOrder := "Отказ", closingData := some 200 }

/-! Theorems. -/

/-- C2: evaluation of `updateOrder` at the failing input.  On an order storing
`result = 1000`, supplying only `expenditure = 200` stores `clean = -200`:
the absent operand is taken from the never-populated `updateData.result || 0`
fallback (always 0) instead of the order's stored `result`, so the stored `clean`
is not `result − expenditure` of the stored record (which would be 800). -/
theorem clean_recompute_ignores_stored_result :
    (updateOrder demoOrder dtoExpOnly operatorUser 50 allOk []).db.clean = some (-200) ∧
    (updateOrder demoOrder dtoExpOnly operatorUser 50 allOk []).db.result = some 1000 ∧
    (updateOrder demoOrder dtoExpOnly operatorUser 50 allOk []).db.expenditure = some 200 ∧
    (updateOrder demoOrder dtoExpOnly operatorUser 50 allOk []).db.clean ≠
      some ((1000 : Int) - 200) := by
  refine ⟨rfl, rfl, rfl, ?_⟩
  decide

/-- C3: evaluation at the failing input.  Closing `demoOrder` with `updateOrder`
books a ledger entry; re-submitting the same Done update on the stored (already
closed) row books a second entry for the same terminal transition, because
`updateOrder` has no duplicate-transition guard (unlike `updateStatus`). -/
theorem updateOrder_rebooks_already_done_order :
    firstClose.booked = true ∧
    firstClose.db.statusOrder = "Готово" ∧
    secondClose.booked = true ∧
    secondClose.db.statusOrder = "Готово" := by
  exact ⟨rfl, rfl, rfl, rfl⟩

/-- C4: evaluation at the failing input.  The three create operations clear the
filter-options cache, but a successful `updateOrder` (and `updateStatus`) leaves it
untouched, so a `getFilterOptions` call issued after the mutation and within the TTL
serves the entry materialized before the mutation (`cached = true`, stale data). -/
theorem update_does_not_invalidate_filter_cache :
    (createOrder {} 1 2 warmCache).2 = [] ∧
    (updateOrder demoOrder dtoCommentOnly operatorUser 10 allOk warmCache).cache =
      warmCache ∧
    (updateStatus demoOrder "Принял" operatorUser 10 allOk warmCache).cache =
      warmCache ∧
    getFilterOptions warmCache operatorUser 500 alwaysTimeout =
      .ok ({ success := true, data := staleData, cached := true },
           [("global", { data := staleData, expiry := 1000, lastAccess := 500 })]) := by
  exact ⟨rfl, rfl, rfl, rfl⟩

/-- C5 counterexample: after closing `demoOrder` (stamping `closingData`) and then
moving it back to the active status Waiting, the stored row has an active
`statusOrder` with a non-null `closingData`, refuting the claimed equivalence. -/
theorem closingData_survives_reopening :
    reopenRun.db.statusOrder = "Ожидает" ∧
    reopenRun.db.closingData = some 100 ∧
    terminalStatuses.contains "Ожидает" = false := by
  exact ⟨rfl, rfl, rfl⟩

/-- C6 counterexample: a single `updateOrder` that changes the city of an order with
an assigned master and also supplies `masterId = 5` stores `masterId = 5`, not null:
the explicit-assignment line runs after, and overwrites, the city-change clearing. -/
theorem city_change_with_explicit_master_keeps_master :
    demoOrder.masterId = some 3 ∧
    demoOrder.city ≠ "Казань" ∧
    (updateOrder demoOrder dtoCityAndMaster operatorUser 10 allOk []).db.masterId =
      some 5 := by
  refine ⟨rfl, ?_, rfl⟩
  decide

/-- C9 counterexample: when every query attempt fails with a timeout, the degraded
response is successful with empty `rks` and `typeEquipments`, but the data object
carries no `cities` key at all — not the contract triple with three empty lists. -/
theorem timeout_fallback_omits_cities :
    getFilterOptions [] operatorUser 0 alwaysTimeout =
      .ok ({ success := true
             data := { rks := [], typeEquipments := [], cities := none }
             errorTag := some "timeout" }, []) ∧
    ({ rks := [], typeEquipments := [], cities := none } : FilterData).cities ≠
      some [] := by
  refine ⟨rfl, by decide⟩

/-- C1: in both `updateOrder` and `updateStatus`, a transition to Done on an order
whose (post-update, resp. pre-read) `masterChange` is positive, when every cash POST
attempt fails, ends with the stored `statusOrder` and `closingData` reverted to their
pre-transition values by the compensating write, `cashSubmissionStatus` set to the
sync-error value, and a distinguishable settlement-unavailable error instead of the
success response. -/
theorem cash_failure_compensates_and_errors :
    (∀ (o : Order) (dto : UpdateOrderDto) (user : AuthUser) (now : Nat)
        (att : Nat → Bool) (cache : FilterCache),
      (user.role == "master" && o.masterId != some user.userId) = false →
      dto.statusOrder = some (some "Готово") →
      positiveMasterChange (applyUpdate o (buildUpdateData o dto now)).masterChange = true →
      att 1 = false → att 2 = false → att 3 = false →
      (updateOrder o dto user now att cache).db.statusOrder = o.statusOrder ∧
      (updateOrder o dto user now att cache).db.closingData = o.closingData ∧
      (updateOrder o dto user now att cache).db.cashSubmissionStatus =
        some "Ошибка синхронизации" ∧
      (updateOrder o dto user now att cache).response =
        .err "Заказ не может быть закрыт: сервис кассы недоступен. Попробуйте позже.") ∧
    (∀ (o : Order) (user : AuthUser) (now : Nat) (att : Nat → Bool) (cache : FilterCache),
      (user.role == "master" && o.masterId != some user.userId) = false →
      o.statusOrder ≠ "Готово" →
      positiveMasterChange o.masterChange = true →
      att 1 = false → att 2 = false → att 3 = false →
      (updateStatus o "Готово" user now att cache).db.statusOrder = o.statusOrder ∧
      (updateStatus o "Готово" user now att cache).db.closingData = o.closingData ∧
      (updateStatus o "Готово" user now att cache).db.cashSubmissionStatus =
        some "Ошибка синхронизации" ∧
      (updateStatus o "Готово" user now att cache).response =
        .err "Сервис транзакций недоступен. Попробуйте позже.") := by
  constructor
  · intro o dto user now att cache hrb hs hmc h1 h2 h3
    simp [updateOrder, syncCashReceipt, cashPostSucceeds, hrb, hs, hmc, h1, h2, h3]
  · intro o user now att cache hrb hdup hmc h1 h2 h3
    simp [updateStatus, syncCashReceipt, cashPostSucceeds, terminalStatuses,
      hrb, hdup, hmc, h1, h2, h3]

/-- C1 witness: the persistent-failure scenario evaluated on `demoOrder` through
both mutation paths. -/
theorem cash_failure_compensates_and_errors_witness :
    ((updateOrder demoOrder dtoDone operatorUser 100 allFail []).db.statusOrder =
        demoOrder.statusOrder ∧
      (updateOrder demoOrder dtoDone operatorUser 100 allFail []).db.closingData =
        demoOrder.closingData ∧
      (updateOrder demoOrder dtoDone operatorUser 100 allFail []).db.cashSubmissionStatus =
        some "Ошибка синхронизации" ∧
      (updateOrder demoOrder dtoDone operatorUser 100 allFail []).response =
        .err "Заказ не может быть закрыт: сервис кассы недоступен. Попробуйте позже.") ∧
    ((updateStatus demoOrder "Готово" operatorUser 100 allFail []).db.statusOrder =
        demoOrder.statusOrder ∧
      (updateStatus demoOrder "Готово" operatorUser 100 allFail []).db.closingData =
        demoOrder.closingData ∧
      (updateStatus demoOrder "Готово" operatorUser 100 allFail []).db.cashSubmissionStatus =
        some "Ошибка синхронизации" ∧
      (updateStatus demoOrder "Готово" operatorUser 100 allFail []).response =
        .err "Сервис транзакций недоступен. Попробуйте позже.") := by
  exact ⟨cash_failure_compensates_and_errors.1 demoOrder dtoDone operatorUser 100 allFail []
      (by decide) rfl (by decide) rfl rfl rfl,
    cash_failure_compensates_and_errors.2 demoOrder operatorUser 100 allFail []
      (by decide) (by decide) (by decide) rfl rfl rfl⟩

/-- C10: when the settlement call fails, the final stored row is exactly the fully
applied update with only `statusOrder` and `closingData` reverted to their
pre-transition values, `cashSubmissionStatus` at the sync-error value and
`cashSubmissionDate` stamped — every other updated field (result, expenditure, clean,
masterChange, prepayment, documents) survives; the failed close is not undone as a whole. -/
theorem cash_failure_frame :
    ∀ (o : Order) (dto : UpdateOrderDto) (user : AuthUser) (now : Nat)
      (att : Nat → Bool) (cache : FilterCache),
      (user.role == "master" && o.masterId != some user.userId) = false →
      dto.statusOrder = some (some "Готово") →
      positiveMasterChange (applyUpdate o (buildUpdateData o dto now)).masterChange = true →
      att 1 = false → att 2 = false → att 3 = false →
      (updateOrder o dto user now att cache).db =
        { applyUpdate o (buildUpdateData o dto now) with
            statusOrder := o.statusOrder
            closingData := o.closingData
            cashSubmissionStatus := some "Ошибка синхронизации"
            cashSubmissionDate := some now } := by
  intro o dto user now att cache hrb hs hmc h1 h2 h3
  simp [updateOrder, syncCashReceipt, cashPostSucceeds, hrb, hs, hmc, h1, h2, h3]

/-- C10 witness: a full close (finances and a document) on `demoOrder` with an
unavailable ledger, evaluated concretely. -/
theorem cash_failure_frame_witness :
    (updateOrder demoOrder dtoFullClose operatorUser 100 allFail []).db =
      { applyUpdate demoOrder (buildUpdateData demoOrder dtoFullClose 100) with
          statusOrder := demoOrder.statusOrder
          closingData := demoOrder.closingData
          cashSubmissionStatus := some "Ошибка синхронизации"
          cashSubmissionDate := some 100 } := by
  exact cash_failure_frame demoOrder dtoFullClose operatorUser 100 allFail []
    (by decide) rfl (by decide) rfl rfl rfl

/-- Helper: under a passing RBAC check, the settlement saga of `updateOrder` never
touches `masterId`, and when the cash POST succeeds (or is not needed) it never
touches `statusOrder` or `closingData` either: those equal the transactional update. -/
theorem updateOrder_saga_frame (o : Order) (dto : UpdateOrderDto) (user : AuthUser)
    (now : Nat) (att : Nat → Bool) (cache : FilterCache)
    (hrb : (user.role == "master" && o.masterId != some user.userId) = false) :
    (updateOrder o dto user now att cache).db.masterId =
      (applyUpdate o (buildUpdateData o dto now)).masterId ∧
    (cashPostSucceeds att = true →
      (updateOrder o dto user now att cache).db.statusOrder =
        (applyUpdate o (buildUpdateData o dto now)).statusOrder ∧
      (updateOrder o dto user now att cache).db.closingData =
        (applyUpdate o (buildUpdateData o dto now)).closingData) := by
  cases hb1 : dto.statusOrder == some (some "Готово") with
  | false => simp [updateOrder, hrb, hb1]
  | true =>
    cases hb2 : positiveMasterChange (applyUpdate o (buildUpdateData o dto now)).masterChange with
    | false => simp [updateOrder, hrb, hb1, hb2]
    | true =>
      by_cases hcash : cashPostSucceeds att = true
      · simp [updateOrder, syncCashReceipt, hrb, hb1, hb2, hcash]
      · rw [Bool.not_eq_true] at hcash
        constructor
        · simp [updateOrder, syncCashReceipt, hrb, hb1, hb2, hcash]
        · intro h
          rw [h] at hcash
          cases hcash

/-- Helper: a successful `updateStatus` into a terminal status stores that status and
stamps `closingData = now`. -/
theorem updateStatus_terminal_success (o : Order) (status : String) (user : AuthUser)
    (now : Nat) (att : Nat → Bool) (cache : FilterCache)
    (hrb : (user.role == "master" && o.masterId != some user.userId) = false)
    (hterm : status ∈ terminalStatuses)
    (hdup : o.statusOrder ≠ status)
    (hcash : cashPostSucceeds att = true) :
    (updateStatus o status user now att cache).db.statusOrder = status ∧
    (updateStatus o status user now att cache).db.closingData = some now := by
  cases hn : (status == "Готово" && positiveMasterChange o.masterChange) with
  | false => simp [updateStatus, hrb, hdup, hn, hterm]
  | true => simp [updateStatus, syncCashReceipt, hrb, hdup, hn, hterm, hcash]

/-- C5 (amended): a successful transition into a terminal status always leaves
`closingData` stamped with the transition time — via `updateStatus` for any terminal
status, and via `updateOrder` for any terminal status supplied without an explicit
closing date.  (The converse direction of the claimed equivalence fails, see the
counterexample: leaving a terminal status does not clear `closingData`.) -/
theorem terminal_transition_stamps_closingData :
    (∀ (o : Order) (status : String) (user : AuthUser) (now : Nat)
        (att : Nat → Bool) (cache : FilterCache),
      (user.role == "master" && o.masterId != some user.userId) = false →
      terminalStatuses.contains status = true →
      o.statusOrder ≠ status →
      cashPostSucceeds att = true →
      (updateStatus o status user now att cache).db.closingData = some now ∧
      (updateStatus o status user now att cache).db.statusOrder = status) ∧
    (∀ (o : Order) (dto : UpdateOrderDto) (user : AuthUser) (now : Nat)
        (att : Nat → Bool) (cache : FilterCache) (s : String),
      (user.role == "master" && o.masterId != some user.userId) = false →
      dto.statusOrder = some (some s) →
      terminalStatuses.contains s = true →
      dto.closingData = none →
      cashPostSucceeds att = true →
      (updateOrder o dto user now att cache).db.closingData = some now ∧
      (updateOrder o dto user now att cache).db.statusOrder = s) := by
  constructor
  · intro o status user now att cache hrb hterm hdup hcash
    have hmem : status ∈ terminalStatuses := by simpa using hterm
    have h := updateStatus_terminal_success o status user now att cache hrb hmem hdup hcash
    exact ⟨h.2, h.1⟩
  · intro o dto user now att cache s hrb hs hterm hcd hcash
    have hmem : s ∈ terminalStatuses := by simpa using hterm
    have hu : updClosingData dto now = some now := by
      simp [updClosingData, presentNonNull, hs, hcd, hmem]
    have h := ((updateOrder_saga_frame o dto user now att cache hrb).2 hcash)
    refine ⟨h.2.trans ?_, h.1.trans ?_⟩
    · simp [applyUpdate, buildUpdateData, applyValue, hu]
    · simp [applyUpdate, buildUpdateData, applyField, presentNonNull, hs]

/-- C5 witness: refusing `demoOrder` via `updateStatus` and closing it via
`updateOrder` both stamp the closing date. -/
theorem terminal_transition_stamps_closingData_witness :
    ((updateStatus demoOrder "Отказ" operatorUser 100 allOk []).db.closingData =
        some 100 ∧
      (updateStatus demoOrder "Отказ" operatorUser 100 allOk []).db.statusOrder =
        "Отказ") ∧
    ((updateOrder demoOrder dtoDone operatorUser 100 allOk []).db.closingData =
        some 100 ∧
      (updateOrder demoOrder dtoDone operatorUser 100 allOk []).db.statusOrder =
        "Готово") := by
  exact ⟨terminal_transition_stamps_closingData.1 demoOrder "Отказ" operatorUser 100 allOk []
      (by decide) (by decide) (by decide) rfl,
    terminal_transition_stamps_closingData.2 demoOrder dtoDone operatorUser 100 allOk []
      "Готово" (by decide) rfl (by decide) rfl rfl⟩

/-- C6 (amended): an `updateOrder` that changes the city of an order with an assigned
master stores `masterId = null` whenever the request does not itself supply a
`masterId`; a request that also supplies `masterId` explicitly stores the supplied
value instead (the explicit-assignment line overwrites the clearing), see the
counterexample. -/
theorem city_change_clears_master_unless_explicit :
    ∀ (o : Order) (dto : UpdateOrderDto) (user : AuthUser) (now : Nat)
      (att : Nat → Bool) (cache : FilterCache),
      (user.role == "master" && o.masterId != some user.userId) = false →
      cityChanged o dto = true →
      o.masterId.isSome = true →
      dto.masterId = none →
      (updateOrder o dto user now att cache).db.masterId = none := by
  intro o dto user now att cache hrb hc hm hdm
  have hu : updMasterId o dto = some none := by
    simp [updMasterId, hdm, hc, hm]
  have h := (updateOrder_saga_frame o dto user now att cache hrb).1
  refine h.trans ?_
  simp [applyUpdate, buildUpdateData, applyNullable, hu]

/-- C6 witness: moving `demoOrder` (master 3 assigned) to another city without
supplying a master unassigns the master. -/
theorem city_change_clears_master_unless_explicit_witness :
    (updateOrder demoOrder dtoCityOnly operatorUser 10 allOk []).db.masterId = none := by
  exact city_change_clears_master_unless_explicit demoOrder dtoCityOnly operatorUser 10
    allOk [] (by decide) (by decide) (by decide) rfl

/-- C9 (amended): when the cache has no entry for the caller's scope and every query
attempt fails with a timeout-signature error, `getFilterOptions` degrades to a
successful response whose data has empty `rks` and `typeEquipments` but omits the
`cities` key entirely (it is not present as an empty list), tagged `timeout`, and the
cache is left unchanged. -/
theorem filter_options_timeout_degrades :
    ∀ (cache : FilterCache) (user : AuthUser) (now : Nat)
      (q : Nat → Except String (List String × List String × List String))
      (e1 e2 e3 : String),
      cacheGet cache (cacheKey user) = none →
      q 1 = .error e1 → strContains e1 "timeout" = true →
      q 2 = .error e2 → strContains e2 "timeout" = true →
      q 3 = .error e3 → strContains e3 "timeout" = true →
      getFilterOptions cache user now q =
        .ok ({ success := true
               data := { rks := [], typeEquipments := [], cities := none }
               cached := false
               errorTag := some "timeout" }, cache) := by
  intro cache user now q e1 e2 e3 hcg hq1 hs1 hq2 hs2 hq3 hs3
  simp [getFilterOptions, executeQueries, isRetryableError, hcg, hq1, hs1, hq2, hs2,
    hq3, hs3]

/-- C9 witness: the empty cache and an always-timing-out store, evaluated concretely. -/
theorem filter_options_timeout_degrades_witness :
    getFilterOptions [] operatorUser 7 alwaysTimeout =
      .ok ({ success := true
             data := { rks := [], typeEquipments := [], cities := none }
             cached := false
             errorTag := some "timeout" }, []) := by
  exact filter_options_timeout_degrades [] operatorUser 7 alwaysTimeout
    "getFilterOptions query timeout (>5s)" "getFilterOptions query timeout (>5s)"
    "getFilterOptions query timeout (>5s)" rfl rfl (by decide) rfl (by decide) rfl
    (by decide)

/-- C7: the master RBAC scope predicate is one of the AND-joined WHERE conditions and
is pushed before any caller-supplied filter, so every order on any page returned to a
caller with role master carries the caller's own user id as `masterId`, whatever
filters the query supplies. -/
theorem master_page_scoped_to_caller :
    ∀ (db : List Order) (q : QueryOrdersDto) (user : AuthUser)
      (masters : Nat → Option String) (o : Order),
      user.role = "master" →
      o ∈ getOrdersPage db q user masters →
      o.masterId = some user.userId := by
  intro db q user masters o hrole hmem
  have h1 : o ∈ (db.filter (matchesWhere user q masters)).mergeSort orderByLE :=
    List.mem_of_mem_drop (List.mem_of_mem_take hmem)
  have h2 : o ∈ db.filter (matchesWhere user q masters) := List.mem_mergeSort.mp h1
  have h3 : matchesWhere user q masters o = true := (List.mem_filter.mp h2).2
  have hcond : (fun x : Order => x.masterId == some user.userId) ∈
      whereConditions user q masters := by
    unfold whereConditions
    rw [hrole]
    simp
  have h4 := List.all_eq_true.mp h3 _ hcond
  simpa using h4

/-- C7 witness: master 7 lists orders; the returned page member is their own order. -/
theorem master_page_scoped_to_caller_witness :
    waitingOrderOfMaster7.masterId = some masterUser7.userId := by
  have hm : matchesWhere masterUser7 {} (fun _ => none) waitingOrderOfMaster7 = true := by
    decide
  have hmem : waitingOrderOfMaster7 ∈
      getOrdersPage [waitingOrderOfMaster7] {} masterUser7 (fun _ => none) := by
    simp [getOrdersPage, List.filter, hm, List.mergeSort_singleton]
  exact master_page_scoped_to_caller [waitingOrderOfMaster7] {} masterUser7
    (fun _ => none) waitingOrderOfMaster7 rfl hmem

/-- Helper: an active status sits on priority rungs 1-5 of the CASE ladder. -/
theorem statusPriority_of_active (s : String) (h : activeStatuses.contains s = true) :
    1 ≤ statusPriority s ∧ statusPriority s ≤ 5 := by
  have hm : s ∈ activeStatuses := by simpa using h
  simp [activeStatuses] at hm
  rcases hm with h | h | h | h | h <;> subst h <;> decide

/-- Helper: a terminal status sits on priority rung 6 of the CASE ladder. -/
theorem statusPriority_of_terminal (s : String) (h : terminalStatuses.contains s = true) :
    statusPriority s = 6 := by
  have hm : s ∈ terminalStatuses := by simpa using h
  simp [terminalStatuses] at hm
  rcases hm with h | h | h <;> subst h <;> decide

/-- Helper: terminal statuses are not active. -/
theorem terminal_not_active (s : String) (h : terminalStatuses.contains s = true) :
    activeStatuses.contains s = false := by
  have hm : s ∈ terminalStatuses := by simpa using h
  simp [terminalStatuses] at hm
  rcases hm with h | h | h <;> subst h <;> decide

/-- Helper: the lexicographic key comparison is asymmetric. -/
theorem keysLt_asymm (p1 p2 : Nat) (m1 m2 c1 c2 : Option Nat)
    (h : keysLt p1 p2 m1 m2 c1 c2 = true) : keysLt p2 p1 m2 m1 c2 c1 = false := by
  rcases m1 with _ | x1 <;> rcases m2 with _ | x2 <;>
    rcases c1 with _ | y1 <;> rcases c2 with _ | y2 <;>
    simp_all [keysLt, ascNullsLastLt, descNullsLastLt] <;> omega

set_option maxHeartbeats 1000000 in
/-- Helper: the negation of the lexicographic key comparison is transitive. -/
theorem keysLt_neg_trans (p1 p2 p3 : Nat) (m1 m2 m3 c1 c2 c3 : Option Nat)
    (h1 : keysLt p2 p1 m2 m1 c2 c1 = false) (h2 : keysLt p3 p2 m3 m2 c3 c2 = false) :
    keysLt p3 p1 m3 m1 c3 c1 = false := by
  rcases m1 with _ | x1 <;> rcases m2 with _ | x2 <;> rcases m3 with _ | x3 <;>
    rcases c1 with _ | y1 <;> rcases c2 with _ | y2 <;> rcases c3 with _ | y3 <;>
    simp_all [keysLt, ascNullsLastLt, descNullsLastLt] <;> omega

/-- Helper: the ORDER BY preorder is total. -/
theorem orderByLE_total (a b : Order) : (orderByLE a b || orderByLE b a) = true := by
  cases h : orderByLt b a with
  | false => simp [orderByLE, h]
  | true =>
    simp only [orderByLt] at h
    have h2 := keysLt_asymm _ _ _ _ _ _ h
    simp [orderByLE, orderByLt, h2]

/-- Helper: the ORDER BY preorder is transitive. -/
theorem orderByLE_trans (a b c : Order) (hab : orderByLE a b = true)
    (hbc : orderByLE b c = true) : orderByLE a c = true := by
  simp only [orderByLE, Bool.not_eq_true'] at hab hbc ⊢
  simp only [orderByLt] at hab hbc ⊢
  exact keysLt_neg_trans _ _ _ _ _ _ _ _ _ hab hbc

/-- C8: every page `getOrders` returns is sorted by the single composite ORDER BY
preorder, and that preorder realises the claimed key: any active-status row strictly
precedes any terminal-status row; among active rows the fixed status-priority ladder
decides first, then ascending meeting date with nulls last; among terminal rows,
descending closing date with nulls last. -/
theorem getOrders_page_sorted_by_composite_key :
    (∀ (db : List Order) (q : QueryOrdersDto) (user : AuthUser)
        (masters : Nat → Option String),
      List.Pairwise (fun a b => orderByLE a b = true) (getOrdersPage db q user masters)) ∧
    (∀ a b : Order, activeStatuses.contains a.statusOrder = true →
      terminalStatuses.contains b.statusOrder = true → orderByLt a b = true) ∧
    (∀ a b : Order, activeStatuses.contains a.statusOrder = true →
      activeStatuses.contains b.statusOrder = true →
      statusPriority a.statusOrder < statusPriority b.statusOrder →
      orderByLt a b = true) ∧
    (∀ a b : Order, activeStatuses.contains a.statusOrder = true →
      activeStatuses.contains b.statusOrder = true → a.statusOrder = b.statusOrder →
      ascNullsLastLt a.dateMeeting b.dateMeeting = true → orderByLt a b = true) ∧
    (∀ a b : Order, terminalStatuses.contains a.statusOrder = true →
      terminalStatuses.contains b.statusOrder = true →
      descNullsLastLt a.closingData b.closingData = true → orderByLt a b = true) := by
  refine ⟨?_, ?_, ?_, ?_, ?_⟩
  · intro db q user masters
    have hp := @List.sorted_mergeSort Order orderByLE orderByLE_trans orderByLE_total
      (db.filter (matchesWhere user q masters))
    simp only [getOrdersPage]
    exact List.Pairwise.sublist
      ((List.take_sublist _ _).trans (List.drop_sublist _ _)) hp
  · intro a b ha hb
    have h1 := statusPriority_of_active _ ha
    have h2 := statusPriority_of_terminal _ hb
    have hlt : statusPriority a.statusOrder < statusPriority b.statusOrder := by omega
    simp only [orderByLt, keysLt, Bool.or_eq_true, decide_eq_true_eq]
    exact Or.inl hlt
  · intro a b ha hb hlt
    simp only [orderByLt, keysLt, Bool.or_eq_true, decide_eq_true_eq]
    exact Or.inl hlt
  · intro a b ha hb heq hasc
    have hma : meetingSortKey a = a.dateMeeting := by
      have hmem : a.statusOrder ∈ activeStatuses := by simpa using ha
      simp [meetingSortKey, hmem]
    have hmb : meetingSortKey b = b.dateMeeting := by
      have hmem : b.statusOrder ∈ activeStatuses := by simpa using hb
      simp [meetingSortKey, hmem]
    have hpa : statusPriority a.statusOrder = statusPriority b.statusOrder := by rw [heq]
    simp only [orderByLt, keysLt, Bool.or_eq_true, Bool.and_eq_true, decide_eq_true_eq,
      beq_iff_eq]
    exact Or.inr ⟨hpa, Or.inl (by rw [hma, hmb]; exact hasc)⟩
  · intro a b ha hb hdesc
    have hna : a.statusOrder ∉ activeStatuses := by
      simpa using terminal_not_active _ ha
    have hnb : b.statusOrder ∉ activeStatuses := by
      simpa using terminal_not_active _ hb
    have hma : meetingSortKey a = none := by simp [meetingSortKey, hna]
    have hmb : meetingSortKey b = none := by simp [meetingSortKey, hnb]
    have hta : a.statusOrder ∈ terminalStatuses := by simpa using ha
    have htb : b.statusOrder ∈ terminalStatuses := by simpa using hb
    have hca : closingSortKey a = a.closingData := by simp [closingSortKey, hta]
    have hcb : closingSortKey b = b.closingData := by simp [closingSortKey, htb]
    have hpa := statusPriority_of_terminal _ ha
    have hpb := statusPriority_of_terminal _ hb
    simp only [orderByLt, keysLt, Bool.or_eq_true, Bool.and_eq_true, decide_eq_true_eq,
      beq_iff_eq]
    refine Or.inr ⟨by rw [hpa, hpb], Or.inr ⟨by rw [hma, hmb], ?_⟩⟩
    rw [hca, hcb]
    exact hdesc

/-- C8 witness: the sortedness conjunct on a one-row store, and the four key
properties instantiated on concrete active/terminal rows. -/
theorem getOrders_page_sorted_by_composite_key_witness :
    List.Pairwise (fun a b => orderByLE a b = true)
      (getOrdersPage [demoOrder] {} operatorUser (fun _ => none)) ∧
    orderByLt meetEarly closedLate = true ∧
    orderByLt meetEarly demoOrder = true ∧
    orderByLt meetEarly meetLate = true ∧
    orderByLt closedLate closedEarly = true := by
  exact ⟨getOrders_page_sorted_by_composite_key.1 [demoOrder] {} operatorUser
      (fun _ => none),
    getOrders_page_sorted_by_composite_key.2.1 meetEarly closedLate (by decide) (by decide),
    getOrders_page_sorted_by_composite_key.2.2.1 meetEarly demoOrder (by decide)
      (by decide) (by decide),
    getOrders_page_sorted_by_composite_key.2.2.2.1 meetEarly meetLate (by decide)
      (by decide) rfl (by decide),
    getOrders_page_sorted_by_composite_key.2.2.2.2 closedLate closedEarly (by decide)
      (by decide) (by decide)⟩

end OrdersService
